import Mathlib

/-!
Shallow embedding of the authentication & session-authorization subsystem of
the contacts-management web API (FastAPI + python-jose + redis + passlib).

Modelled source files:
  src/services/auth.py     (class Auth: token issuance, decoding, get_current_user)
  src/services/roles.py    (class RoleAccess)
  src/repository/users.py  (get_user_by_email, update_token)
  src/routes/auth.py       (login, refresh_token routes)
  src/routes/contacts.py   (per-route RoleAccess allow-sets)
  src/conf/config.py       (secret_key / algorithm defaults)

Time is modelled in whole seconds (Nat).  A JWT string is modelled as the
record of the claims it certifies together with the key and algorithm it was
signed with; `jwt_decode` succeeds exactly when the key and algorithm match
and the token is not expired, mirroring python-jose signature verification
and its codec-level `exp` check.  An unhandled Python exception
(AttributeError / KeyError) is modelled by the `crash` result, distinct from
a typed `HTTPException`.
-/

namespace HW13

/-- Result of running a Python request handler: a normal return value, a
raised `HTTPException` carrying a status code and a detail string, or an
unhandled exception (crash). -/
inductive PyResult (α : Type) where
  | ok (a : α)
  | httpError (statusCode : Nat) (detail : String)
  | crash (msg : String)
deriving DecidableEq, Repr

/-- Role enum from `src/database/models.py` (file not among the sources;
its three values are fixed by the spec and by every use site:
`Role.admin`, `Role.moderator`, `Role.user`). -/
inductive Role where
  | admin
  | moderator
  | user
deriving DecidableEq, Repr

/-- JWT claims set used by `Auth`: the `data` dict is always the subject
email and the service adds `iat`, `exp` and `scope` (src/services/auth.py). -/
structure Claims where
  sub : Option String
  iat : Nat
  exp : Nat
  scope : String
deriving DecidableEq, Repr

/-- A signed token string, modelled as the claims it certifies plus the
signing key and algorithm. -/
structure Token where
  claims : Claims
  key : String
  alg : String
deriving DecidableEq, Repr

/-- Principal record from `src/database/models.py` (file not among the
sources; fields are fixed by the spec data model §3 and by the use sites in
src/repository/users.py, src/routes/auth.py and src/services/roles.py).
The stored refresh token is kept as the `Token` value it deserializes to. -/
structure User where
  id : Nat
  username : String
  email : String
  password : String
  confirmed : Bool
  refresh_token : Option Token
  roles : Role
  avatar : Option String
deriving DecidableEq, Repr

end HW13

namespace HW13

/-- `settings.secret_key` (src/conf/config.py default). -/
def SECRET_KEY : String := "secret_key"

/-- `settings.algorithm` (src/conf/config.py default). -/
def ALGORITHM : String := "HS256"

/-- `jwt.decode(token, key, algorithms=algs)`: succeeds iff the signature
verifies (key and algorithm match) and the `exp` claim is not in the past
(python-jose raises `ExpiredSignatureError ⊂ JWTError` when `exp < now`).
`none` models a raised `JWTError`. -/
def jwt_decode (now : Nat) (t : Token) (key : String) (algs : List String) :
    Option Claims :=
  if t.key = key ∧ t.alg ∈ algs ∧ now ≤ t.claims.exp then some t.claims else none

/-- `Auth.create_access_token` (src/services/auth.py:48-68).  Python tests
`if expires_delta:`, which is false both for `None` and for `0`, falling
back to the 15-minute default. -/
def create_access_token (sub : Option String) (expires_delta : Option Nat)
    (now : Nat) : Token :=
  let expire : Nat :=
    match expires_delta with
    | some d => if d ≠ 0 then now + d else now + 15 * 60
    | none => now + 15 * 60
  ⟨⟨sub, now, expire, "access_token"⟩, SECRET_KEY, ALGORITHM⟩

/-- `Auth.create_refresh_token` (src/services/auth.py:70-92); default
lifetime 7 days, same `if expires_delta:` truthiness test. -/
def create_refresh_token (sub : Option String) (expires_delta : Option Nat)
    (now : Nat) : Token :=
  let expire : Nat :=
    match expires_delta with
    | some d => if d ≠ 0 then now + d else now + 7 * 24 * 60 * 60
    | none => now + 7 * 24 * 60 * 60
  ⟨⟨sub, now, expire, "refresh_token"⟩, SECRET_KEY, ALGORITHM⟩

/-- `Auth.create_email_token` (src/services/auth.py:165-184); always 7 days,
no lifetime parameter. -/
def create_email_token (sub : Option String) (now : Nat) : Token :=
  ⟨⟨sub, now, now + 7 * 24 * 60 * 60, "email_token"⟩, SECRET_KEY, ALGORITHM⟩

/-- Modelled from the spec: the Credential Hasher (§4.1) is delegated by the
source to the external passlib/bcrypt library (`Auth.pwd_context.hash`,
src/services/auth.py:36-46), whose implementation is not part of this
repository.  `hash(plaintext) -> digest`; a well-formed digest is one
produced by `hash`. -/
def get_password_hash (password : String) : String :=
  "$2b$12$" ++ password

/-- Modelled from the spec: Credential Hasher `verify(plaintext, digest) ->
bool` (§4.1), delegated by the source to passlib
(`Auth.pwd_context.verify`, src/services/auth.py:23-34).  Total (never
throws); true exactly when the digest is the hash of the plaintext. -/
def verify_password (plain_password hashed_password : String) : Bool :=
  hashed_password == get_password_hash plain_password

/-- `get_user_by_email` (src/repository/users.py:8-18):
`db.query(User).filter_by(email=email).first()`.  The durable store is
modelled as the list of user rows. -/
def get_user_by_email (email : String) (db : List User) : Option User :=
  db.find? (fun u => u.email == email)

/-- `update_token` (src/repository/users.py:38-48): sets
`user.refresh_token = refresh_token` on the fetched row and commits; the
row is identified by its email (unique at signup). -/
def update_token (user : User) (tok : Option Token) (db : List User) :
    List User :=
  db.map (fun u => if u.email == user.email then { u with refresh_token := tok } else u)

/-- One redis value: the pickled principal blob (modelled as the `User` it
deserializes to) together with its remaining TTL, `none` when no expiry is
set. -/
structure CacheEntry where
  value : User
  ttl : Option Nat
deriving DecidableEq, Repr

/-- The redis session cache: key-value pairs, most recent binding first. -/
abbrev Cache := List (String × CacheEntry)

/-- `r.get(k)` followed by `pickle.loads`: the deserialized principal. -/
def cacheGet (r : Cache) (k : String) : Option User :=
  (r.find? (fun p => p.1 == k)).map (fun p => p.2.value)

/-- `r.set(k, pickle.dumps(u))`: overwrites the binding and clears any TTL. -/
def cacheSet (r : Cache) (k : String) (u : User) : Cache :=
  (k, ⟨u, none⟩) :: r.filter (fun p => p.1 != k)

/-- `r.expire(k, t)`: sets the TTL of the binding for `k`. -/
def cacheExpire (r : Cache) (k : String) (t : Nat) : Cache :=
  r.map (fun p => if p.1 == k then (p.1, ⟨p.2.value, some t⟩) else p)

/-- The redis key used for a principal: the literal prefix "user:" followed
by the subject email (src/services/auth.py:129). -/
def userKey (email : String) : String :=
  "user:" ++ email

/-- The single `credentials_exception` reused for every failure mode of
`Auth.get_current_user` (src/services/auth.py:109-113). -/
def credentials_exception : PyResult α :=
  .httpError 401 "Could not validate credentials"

/-- `Auth.get_current_user` (src/services/auth.py:96-140): decode the
bearer token, require `scope == "access_token"` and a present `sub` claim
(`payload.get("sub")` is only checked against `None`), then resolve the
principal cache-aside: redis hit deserializes and returns; miss falls back
to the durable store, failing with the credentials exception when absent,
else populating the cache with a 900-second TTL.  Returns the result
together with the cache state after the call. -/
def get_current_user (now : Nat) (token : Token) (db : List User) (r : Cache) :
    PyResult User × Cache :=
  match jwt_decode now token SECRET_KEY [ALGORITHM] with
  | none => (credentials_exception, r)
  | some payload =>
    if payload.scope = "access_token" then
      match payload.sub with
      | none => (credentials_exception, r)
      | some email =>
        match cacheGet r (userKey email) with
        | some u => (.ok u, r)
        | none =>
          match get_user_by_email email db with
          | none => (credentials_exception, r)
          | some user =>
            (.ok user, cacheExpire (cacheSet r (userKey email) user) (userKey email) 900)
    else (credentials_exception, r)

/-- `Auth.decode_refresh_token` (src/services/auth.py:142-163): decode,
require `scope == "refresh_token"`, return `payload["sub"]`.  A missing
`sub` key raises `KeyError`, which the `except JWTError` clause does not
catch. -/
def decode_refresh_token (now : Nat) (t : Token) : PyResult String :=
  match jwt_decode now t SECRET_KEY [ALGORITHM] with
  | some payload =>
    if payload.scope = "refresh_token" then
      match payload.sub with
      | some email => .ok email
      | none => .crash "KeyError: sub"
    else .httpError 401 "Invalid scope for token"
  | none => .httpError 401 "Could not validate credentials"

/-- `Auth.get_email_from_token` (src/services/auth.py:186-207): decode,
and only when `scope == "email_token"` return `payload["sub"]`.  When the
signature is valid but the scope differs, control falls off the end of the
function and Python returns `None` (`.ok none`); only a `JWTError` is
turned into the 422 response. -/
def get_email_from_token (now : Nat) (t : Token) : PyResult (Option String) :=
  match jwt_decode now t SECRET_KEY [ALGORITHM] with
  | some payload =>
    if payload.scope = "email_token" then
      match payload.sub with
      | some email => .ok (some email)
      | none => .crash "KeyError: sub"
    else .ok none
  | none => .httpError 422 "Invalid token for email verification"

/-- Response body of the login and refresh routes: the access token, the
refresh token, and `token_type = "bearer"`. -/
structure TokenResponse where
  access_token : Token
  refresh_token : Token
  token_type : String
deriving DecidableEq, Repr

/-- `login` route (src/routes/auth.py:44-70): fetch the principal from the
durable store (never the cache), reject an unknown email with 401
"Invalid email", an unconfirmed account with 401 "Email not confirmad",
a failing password check with 401 "Invalid password"; otherwise issue a
fresh access and refresh token, persist the new refresh token, and return
both with `token_type = "bearer"`.  Returns the result together with the
store state after the call. -/
def login (now : Nat) (username password : String) (db : List User) :
    PyResult TokenResponse × List User :=
  match get_user_by_email username db with
  | none => (.httpError 401 "Invalid email", db)
  | some user =>
    if user.confirmed = false then (.httpError 401 "Email not confirmad", db)
    else if verify_password password user.password = false then
      (.httpError 401 "Invalid password", db)
    else
      let access := create_access_token (some user.email) none now
      let refresh := create_refresh_token (some user.email) none now
      (.ok ⟨access, refresh, "bearer"⟩, update_token user (some refresh) db)

/-- `refresh_token` route (src/routes/auth.py:73-95): decode the presented
refresh token, fetch the principal by subject email, and compare the stored
refresh token with the presented one.  `user = get_user_by_email(...)` is
not checked for `None`, so an unknown subject crashes with an
`AttributeError` on `user.refresh_token`.  On mismatch the stored token is
cleared (`update_token(user, None, db)`) and 401 "Invalid refresh token"
is raised; on match new tokens are issued and the stored token rotated. -/
def refresh_token (now : Nat) (token : Token) (db : List User) :
    PyResult TokenResponse × List User :=
  match decode_refresh_token now token with
  | .httpError s d => (.httpError s d, db)
  | .crash m => (.crash m, db)
  | .ok email =>
    match get_user_by_email email db with
    | none => (.crash "AttributeError: NoneType object has no attribute refresh_token", db)
    | some user =>
      if user.refresh_token ≠ some token then
        (.httpError 401 "Invalid refresh token", update_token user none db)
      else
        let access := create_access_token (some email) none now
        let refresh := create_refresh_token (some email) none now
        (.ok ⟨access, refresh, "bearer"⟩, update_token user (some refresh) db)

/-- `RoleAccess` (src/services/roles.py:9-28): per-route gate holding a
fixed allow-list of roles. -/
structure RoleAccess where
  allowed_roles : List Role
deriving DecidableEq, Repr

/-- `RoleAccess.__call__` (src/services/roles.py:22-28): raise 403
"Operation forbidden" unless the resolved principal role is a member of
the allow-list. -/
def RoleAccess.call (self : RoleAccess) (current_user : User) : PyResult Unit :=
  if current_user.roles ∈ self.allowed_roles then .ok ()
  else .httpError 403 "Operation forbidden"

/-- `allowed_operation_get` (src/routes/contacts.py:14). -/
def allowed_operation_get : RoleAccess := ⟨[.admin, .moderator, .user]⟩

/-- `allowed_operation_create` (src/routes/contacts.py:15). -/
def allowed_operation_create : RoleAccess := ⟨[.admin, .moderator, .user]⟩

/-- `allowed_operation_update` (src/routes/contacts.py:16). -/
def allowed_operation_update : RoleAccess := ⟨[.admin, .moderator]⟩

/-- `allowed_operation_remove` (src/routes/contacts.py:17). -/
def allowed_operation_remove : RoleAccess := ⟨[.admin]⟩

/-- The session cache and the durable store are consistent when every cached
principal copy agrees with the durable store row for that subject (spec §4.3:
the durable store is always the source of truth). -/
def consistent (db : List User) (r : Cache) : Prop :=
  ∀ email u, cacheGet r (userKey email) = some u → get_user_by_email email db = some u

/-- Sample confirmed principal. -/
def alice : User :=
  ⟨1, "alice_w", "alice@example.com", get_password_hash "secret", true, none, .user, none⟩

/-- Sample principal with the moderator role. -/
def bobModerator : User :=
  ⟨2, "bob_mod", "bob@example.com", get_password_hash "pw1234", true, none, .moderator, none⟩

/-- The refresh token issued to alice by a login at time 0. -/
def storedRefresh : Token :=
  create_refresh_token (some "alice@example.com") none 0

/-- Alice with an active session holding `storedRefresh`. -/
def aliceSession : User :=
  { alice with refresh_token := some storedRefresh }

/-- A well-signed refresh token for alice issued at time 5; distinct from
`storedRefresh`. -/
def staleRefresh : Token :=
  ⟨⟨some "alice@example.com", 5, 1000000, "refresh_token"⟩, SECRET_KEY, ALGORITHM⟩

/-- A well-signed refresh token whose subject has no row in the store. -/
def ghostRefresh : Token :=
  ⟨⟨some "ghost@example.com", 0, 1000, "refresh_token"⟩, SECRET_KEY, ALGORITHM⟩

/-- A well-signed access-scope token presented to the email-verification
decoder. -/
def forgedAccessAsEmail : Token :=
  ⟨⟨some "alice@example.com", 0, 900, "access_token"⟩, SECRET_KEY, ALGORITHM⟩

/-- A well-signed access token for alice. -/
def aliceAccess : Token :=
  ⟨⟨some "alice@example.com", 0, 900, "access_token"⟩, SECRET_KEY, ALGORITHM⟩

/-- A principal whose email is the empty string. -/
def emptyMailUser : User :=
  ⟨7, "emptyem", "", get_password_hash "pw1234", true, none, .user, none⟩

/-- A well-signed access token whose subject claim is the empty string. -/
def emptySubToken : Token :=
  ⟨⟨some "", 0, 900, "access_token"⟩, SECRET_KEY, ALGORITHM⟩

/-- The redis key map is injective: distinct subjects use distinct keys. -/
theorem userKey_inj {a b : String} (h : userKey a = userKey b) : a = b := by
  have hd := congrArg String.data h
  simp only [userKey, String.data_append] at hd
  exact String.ext (List.append_cancel_left hd)

/-- Looking a user up after `update_token` returns the looked-up row of the
original store, with its refresh token replaced when its email matches the
updated user's email. -/
theorem get_user_by_email_update_token (e : String) (u : User) (tok : Option Token)
    (db : List User) :
    get_user_by_email e (update_token u tok db) =
      (get_user_by_email e db).map
        (fun w => if w.email == u.email then { w with refresh_token := tok } else w) := by
  unfold get_user_by_email update_token
  rw [List.find?_map]
  have hp : ((fun w : User => w.email == e) ∘
      fun w : User => if w.email == u.email then { w with refresh_token := tok } else w) =
      fun w : User => w.email == e := by
    funext w
    by_cases h : w.email == u.email <;> simp [Function.comp, h]
  rw [hp]

/-- C4 (code evaluated at the failing input): a token whose signature is
valid under the process secret but whose scope claim is `"access_token"`
makes `get_email_from_token` return `None` (`.ok none`), not the 422
"Invalid token for email verification" failure the spec requires: control
falls off the end of the function when the scope test is false. -/
theorem get_email_from_token_wrong_scope_returns_none :
    get_email_from_token 0 forgedAccessAsEmail = .ok none := by
  decide

/-- C6: `RoleAccess.call` succeeds exactly when the principal role is a
member of the gate's allow-set (403 "Operation forbidden" otherwise), with
no role hierarchy: an admin principal is rejected by any gate whose
allow-set does not list admin.  The declared per-route sets are
get = [admin, moderator, user], update = [admin, moderator],
remove = [admin]; the [admin, moderator] gate rejects role user and
accepts moderator and admin. -/
theorem roleAccess_call_membership :
    (∀ ra u, RoleAccess.call ra u = .ok () ↔ u.roles ∈ ra.allowed_roles)
  ∧ (∀ ra u, u.roles ∉ ra.allowed_roles →
      RoleAccess.call ra u = .httpError 403 "Operation forbidden")
  ∧ (∀ ra u, u.roles = .admin → .admin ∉ ra.allowed_roles →
      RoleAccess.call ra u = .httpError 403 "Operation forbidden")
  ∧ allowed_operation_get.allowed_roles = [.admin, .moderator, .user]
  ∧ allowed_operation_update.allowed_roles = [.admin, .moderator]
  ∧ allowed_operation_remove.allowed_roles = [.admin]
  ∧ (∀ u, u.roles = .user →
      RoleAccess.call ⟨[.admin, .moderator]⟩ u = .httpError 403 "Operation forbidden")
  ∧ (∀ u, u.roles = .moderator ∨ u.roles = .admin →
      RoleAccess.call ⟨[.admin, .moderator]⟩ u = .ok ()) := by
  refine ⟨?_, ?_, ?_, rfl, rfl, rfl, ?_, ?_⟩
  · intro ra u
    constructor
    · intro h
      by_contra hmem
      simp [RoleAccess.call, hmem] at h
    · intro hmem
      simp [RoleAccess.call, hmem]
  · intro ra u hmem
    simp [RoleAccess.call, hmem]
  · intro ra u hrole hmem
    simp [RoleAccess.call, hrole, hmem]
  · intro u hrole
    simp [RoleAccess.call, hrole]
  · intro u hrole
    rcases hrole with h | h <;> simp [RoleAccess.call, h]

/-- C6 witness: the [admin, moderator] gate at concrete principals: alice
(role user) is rejected with 403, bobModerator is accepted. -/
theorem roleAccess_call_membership_witness :
    RoleAccess.call ⟨[.admin, .moderator]⟩ alice = .httpError 403 "Operation forbidden"
  ∧ RoleAccess.call ⟨[.admin, .moderator]⟩ bobModerator = .ok () :=
  ⟨roleAccess_call_membership.2.2.2.2.2.2.1 alice rfl,
   roleAccess_call_membership.2.2.2.2.2.2.2 bobModerator (Or.inl rfl)⟩

/-- C7: the credential hasher (modelled from the spec, §4.1, since the
source delegates to the external passlib library): `verify` is a total
boolean function — on any digest that is not a well-formed hash it returns
false (it cannot throw) — and `verify(p, hash(p))` is true for every
password `p`. -/
theorem verify_password_total_and_roundtrip :
    (∀ p d, (¬ ∃ q, d = get_password_hash q) → verify_password p d = false)
  ∧ (∀ p, verify_password p (get_password_hash p) = true) := by
  constructor
  · intro p d h
    by_contra hb
    have ht : verify_password p d = true := by
      cases hv : verify_password p d
      · exact absurd hv hb
      · rfl
    have heq : d = get_password_hash p := by
      simpa [verify_password] using ht
    exact h ⟨p, heq⟩
  · intro p
    simp [verify_password]

/-- C7 witness: the empty string is not a well-formed digest; `verify`
returns false on it and true on a genuine hash. -/
theorem verify_password_total_and_roundtrip_witness :
    verify_password "secret" "" = false
  ∧ verify_password "secret" (get_password_hash "secret") = true := by
  refine ⟨verify_password_total_and_roundtrip.1 "secret" "" ?_,
    verify_password_total_and_roundtrip.2 "secret"⟩
  rintro ⟨q, hq⟩
  have hd := congrArg String.data hq
  simp [get_password_hash, String.data_append] at hd

/-- C9 counterexample: an access token issued with the explicit lifetime 0
seconds does not expire 0 seconds after issuance: Python's
`if expires_delta:` is false at 0, so the token falls back to the 15-minute
default and expires at `iat + 900`. -/
theorem create_access_token_zero_lifetime_cex :
    (create_access_token (some "alice@example.com") (some 0) 100).claims.exp = 1000
  ∧ (1000 : Nat) ≠ 100 + 0 := by
  decide

/-- C9 (amended): an access token issued without an explicit lifetime
expires 15 minutes after issuance; with an explicit nonzero lifetime in
seconds it expires that many seconds after issuance (a zero lifetime is
treated as absent and falls back to the default); a refresh token without
an explicit lifetime and an email-verification token expire 7 days after
issuance. -/
theorem token_lifetimes (sub : Option String) (now d : Nat) :
    (create_access_token sub none now).claims.iat = now
  ∧ (create_access_token sub none now).claims.exp = now + 15 * 60
  ∧ (d ≠ 0 → (create_access_token sub (some d) now).claims.iat = now
      ∧ (create_access_token sub (some d) now).claims.exp = now + d)
  ∧ (create_refresh_token sub none now).claims.iat = now
  ∧ (create_refresh_token sub none now).claims.exp = now + 7 * 24 * 60 * 60
  ∧ (create_email_token sub now).claims.iat = now
  ∧ (create_email_token sub now).claims.exp = now + 7 * 24 * 60 * 60 := by
  refine ⟨rfl, rfl, ?_, rfl, rfl, rfl, rfl⟩
  intro h
  exact ⟨rfl, by simp [create_access_token, h]⟩

/-- C9 witness: an access token issued at time 5 with the explicit lifetime
60 seconds expires at 65. -/
theorem token_lifetimes_witness :
    (create_access_token (some "alice@example.com") (some 60) 5).claims.iat = 5
  ∧ (create_access_token (some "alice@example.com") (some 60) 5).claims.exp = 5 + 60 :=
  (token_lifetimes (some "alice@example.com") 5 60).2.2.1 (by decide)

/-- C10: a refresh call presenting a well-signed refresh-scope token whose
subject email has no row in the durable store does not fail with a typed
error: `get_user_by_email` returns `None` unchecked and the comparison
`user.refresh_token != token` dereferences it, crashing with an
`AttributeError` instead of an UnknownPrincipal-style failure. -/
theorem refresh_unknown_subject_crashes
    (now : Nat) (t : Token) (db : List User) (email : String)
    (hdec : decode_refresh_token now t = .ok email)
    (habs : get_user_by_email email db = none) :
    refresh_token now t db =
      (.crash "AttributeError: NoneType object has no attribute refresh_token", db) := by
  simp [refresh_token, hdec, habs]

/-- C10 witness: the ghost refresh token against an empty store crashes. -/
theorem refresh_unknown_subject_crashes_witness :
    refresh_token 0 ghostRefresh [] =
      (.crash "AttributeError: NoneType object has no attribute refresh_token", []) :=
  refresh_unknown_subject_crashes 0 ghostRefresh [] "ghost@example.com"
    (by decide) rfl

/-- C2: when the presented token decodes with refresh scope but the
principal's stored refresh token is not exactly the presented token, the
route clears the stored token (`update_token user none`) and fails with
401 "Invalid refresh token"; the principal row afterwards carries no
refresh token, and no new tokens are issued (the result is the error, not
a token response). -/
theorem refresh_mismatch_clears_and_fails
    (now : Nat) (t : Token) (db : List User) (email : String) (user : User)
    (hdec : decode_refresh_token now t = .ok email)
    (hget : get_user_by_email email db = some user)
    (hne : user.refresh_token ≠ some t) :
    refresh_token now t db = (.httpError 401 "Invalid refresh token", update_token user none db)
  ∧ (∀ u2, get_user_by_email email (update_token user none db) = some u2 →
      u2.refresh_token = none) := by
  constructor
  · simp [refresh_token, hdec, hget, hne]
  · intro u2 h2
    rw [get_user_by_email_update_token, hget] at h2
    simp at h2
    rw [← h2]

/-- C2 witness: alice holds `storedRefresh`; presenting the distinct
`staleRefresh` clears her stored token and fails with 401. -/
theorem refresh_mismatch_clears_and_fails_witness :
    refresh_token 10 staleRefresh [aliceSession] =
      (.httpError 401 "Invalid refresh token", update_token aliceSession none [aliceSession])
  ∧ (∀ u2, get_user_by_email "alice@example.com"
        (update_token aliceSession none [aliceSession]) = some u2 →
      u2.refresh_token = none) :=
  refresh_mismatch_clears_and_fails 10 staleRefresh [aliceSession] "alice@example.com"
    aliceSession (by decide) (by decide) (by decide)

/-- C5 counterexample: against a store holding only the confirmed principal
alice, a login with an unknown email and a login with alice's email but a
wrong password both return status 401 but with different detail strings
("Invalid email" vs "Invalid password"), so the two failures are
distinguishable and the response reveals whether the account exists. -/
theorem login_enumeration_cex :
    (login 0 "bob@example.com" "secret" [alice]).1 = .httpError 401 "Invalid email"
  ∧ (login 0 "alice@example.com" "wrongpw" [alice]).1 = .httpError 401 "Invalid password"
  ∧ "Invalid email" ≠ "Invalid password" := by
  refine ⟨by decide, by decide, by decide⟩

/-- C5 (amended): both failures carry status 401, but the detail strings
differ — "Invalid email" when no principal exists for the email, and
"Invalid password" when the (confirmed) principal exists and password
verification fails — so the caller can distinguish the two cases. -/
theorem login_failure_details (now : Nat) (db : List User)
    (unknownEmail pw1 knownEmail pw2 : String) (user : User)
    (h1 : get_user_by_email unknownEmail db = none)
    (h2 : get_user_by_email knownEmail db = some user)
    (hc : user.confirmed = true)
    (hv : verify_password pw2 user.password = false) :
    (login now unknownEmail pw1 db).1 = .httpError 401 "Invalid email"
  ∧ (login now knownEmail pw2 db).1 = .httpError 401 "Invalid password" := by
  constructor
  · simp [login, h1]
  · simp [login, h2, hc, hv]

/-- C5 witness: the two concrete logins of the counterexample, through the
amended theorem. -/
theorem login_failure_details_witness :
    (login 0 "bob@example.com" "secret" [alice]).1 = .httpError 401 "Invalid email"
  ∧ (login 0 "alice@example.com" "wrongpw" [alice]).1 = .httpError 401 "Invalid password" :=
  login_failure_details 0 [alice] "bob@example.com" "secret" "alice@example.com"
    "wrongpw" alice (by decide) (by decide) (by decide) (by decide)

/-- C1 counterexample: `get_current_user` can succeed for a token whose
subject claim is the empty string: the code only compares
`payload.get("sub")` against `None`, so a present-but-empty subject passes
the check and resolves against the cache entry for the empty email. -/
theorem get_current_user_empty_subject_cex :
    emptySubToken.claims.sub = some ""
  ∧ (get_current_user 0 emptySubToken [] [(userKey "", ⟨emptyMailUser, some 900⟩)]).1 =
      .ok emptyMailUser := by
  refine ⟨rfl, by decide⟩

/-- C1 (amended): `get_current_user` succeeds only if the token decodes
under the process secret and algorithm without being expired, its scope
claim equals `"access_token"`, and its subject claim is present (the empty
string is accepted); for a token meeting those conditions it returns the
cached principal when a cache entry for the subject exists (cache
untouched), fails with the credentials exception when both the cache and
the durable store miss, and on a cache miss with a store hit returns the
stored principal and writes the cache entry for the subject with the
principal and a 900-second TTL. -/
theorem get_current_user_characterization
    (now : Nat) (t : Token) (db : List User) (r : Cache) :
    (∀ u r2, get_current_user now t db r = (.ok u, r2) →
      t.key = SECRET_KEY ∧ t.alg = ALGORITHM ∧ now ≤ t.claims.exp ∧
      t.claims.scope = "access_token" ∧ t.claims.sub ≠ none)
  ∧ (∀ email, t.key = SECRET_KEY → t.alg = ALGORITHM → now ≤ t.claims.exp →
      t.claims.scope = "access_token" → t.claims.sub = some email →
      (∀ u, cacheGet r (userKey email) = some u →
        get_current_user now t db r = (.ok u, r))
      ∧ (cacheGet r (userKey email) = none → get_user_by_email email db = none →
        get_current_user now t db r = (credentials_exception, r))
      ∧ (∀ u, cacheGet r (userKey email) = none → get_user_by_email email db = some u →
        (get_current_user now t db r).1 = .ok u ∧
        List.find? (fun p => p.1 == userKey email) (get_current_user now t db r).2 =
          some (userKey email, ⟨u, some 900⟩))) := by
  constructor
  · intro u r2 h
    by_cases h1 : t.key = SECRET_KEY ∧ t.alg ∈ [ALGORITHM] ∧ now ≤ t.claims.exp
    · have hdec : jwt_decode now t SECRET_KEY [ALGORITHM] = some t.claims := by
        unfold jwt_decode
        rw [if_pos h1]
      by_cases h2 : t.claims.scope = "access_token"
      · refine ⟨h1.1, by simpa using h1.2.1, h1.2.2, h2, ?_⟩
        cases h3 : t.claims.sub with
        | none => simp [get_current_user, hdec, h2, h3, credentials_exception] at h
        | some email => simp [h3]
      · simp [get_current_user, hdec, h2, credentials_exception] at h
    · have hdec : jwt_decode now t SECRET_KEY [ALGORITHM] = none := by
        unfold jwt_decode
        rw [if_neg h1]
      simp [get_current_user, hdec, credentials_exception] at h
  · intro email hk ha he hs hsub
    have hdec : jwt_decode now t SECRET_KEY [ALGORITHM] = some t.claims := by
      simp [jwt_decode, hk, ha, he]
    refine ⟨?_, ?_, ?_⟩
    · intro u hhit
      simp [get_current_user, hdec, hs, hsub, hhit]
    · intro hmiss habs
      simp [get_current_user, hdec, hs, hsub, hmiss, habs]
    · intro u hmiss hstore
      constructor
      · simp [get_current_user, hdec, hs, hsub, hmiss, hstore]
      · simp [get_current_user, hdec, hs, hsub, hmiss, hstore, cacheExpire, cacheSet,
          List.find?]

/-- C1 witness: alice's access token against an empty cache and the store
holding alice: the call returns alice and populates the cache entry with a
900-second TTL. -/
theorem get_current_user_characterization_witness :
    (get_current_user 0 aliceAccess [alice] []).1 = .ok alice
  ∧ List.find? (fun p => p.1 == userKey "alice@example.com")
      (get_current_user 0 aliceAccess [alice] []).2 =
      some (userKey "alice@example.com", ⟨alice, some 900⟩) :=
  ((get_current_user_characterization 0 aliceAccess [alice] []).2 "alice@example.com"
    rfl rfl (by decide) rfl rfl).2.2 alice rfl (by decide)

/-- C8: for a durable store and two session caches each consistent with it
(every cached principal copy equals the store row for its subject),
`get_current_user` returns the same result for any bearer token whether it
runs against the one cache or the other — in particular the cold-cache
(miss, store fetch, populate) and warm-cache (hit, deserialize) executions
return the same principal. -/
theorem get_current_user_cache_oblivious
    (now : Nat) (t : Token) (db : List User) (r1 r2 : Cache)
    (hc1 : consistent db r1) (hc2 : consistent db r2) :
    (get_current_user now t db r1).1 = (get_current_user now t db r2).1 := by
  cases hd : jwt_decode now t SECRET_KEY [ALGORITHM] with
  | none => simp [get_current_user, hd]
  | some payload =>
    by_cases hs : payload.scope = "access_token"
    · cases hsub : payload.sub with
      | none => simp [get_current_user, hd, hs, hsub]
      | some email =>
        cases hg1 : cacheGet r1 (userKey email) with
        | some u1 =>
          have e1 := hc1 email u1 hg1
          cases hg2 : cacheGet r2 (userKey email) with
          | some u2 =>
            have e2 := hc2 email u2 hg2
            rw [e1] at e2
            injection e2 with e3
            simp [get_current_user, hd, hs, hsub, hg1, hg2, e3]
          | none =>
            simp [get_current_user, hd, hs, hsub, hg1, hg2, e1]
        | none =>
          cases hg2 : cacheGet r2 (userKey email) with
          | some u2 =>
            have e2 := hc2 email u2 hg2
            simp [get_current_user, hd, hs, hsub, hg1, hg2, e2]
          | none =>
            cases hu : get_user_by_email email db with
            | none => simp [get_current_user, hd, hs, hsub, hg1, hg2, hu]
            | some u => simp [get_current_user, hd, hs, hsub, hg1, hg2, hu]
    · simp [get_current_user, hd, hs]

/-- C8 witness: alice's access token served from the empty (cold) cache and
from a warm cache holding alice's entry yields the same result. -/
theorem get_current_user_cache_oblivious_witness :
    (get_current_user 0 aliceAccess [alice] []).1 =
      (get_current_user 0 aliceAccess [alice]
        [(userKey "alice@example.com", ⟨alice, some 900⟩)]).1 := by
  apply get_current_user_cache_oblivious
  · intro email u h
    simp [cacheGet] at h
  · intro email u h
    by_cases he : userKey "alice@example.com" = userKey email
    · have hemail : email = "alice@example.com" := (userKey_inj he).symm
      subst hemail
      simp [cacheGet, List.find?] at h
      rw [← h]
      decide
    · have hbeq : (userKey "alice@example.com" == userKey email) = false := by
        simpa using he
      simp [cacheGet, List.find?, hbeq] at h

/-- After the stored refresh token of a principal row is overwritten with a
newly issued token, presenting any other token with the same subject hits
the mismatch branch: the lookup returns the rotated row and the comparison
fails, so the refresh route returns 401 "Invalid refresh token". -/
theorem rotated_store_rejects_old
    (now2 : Nat) (db db2 : List User) (user : User) (email : String)
    (t_old newRefresh : Token)
    (hdb2 : db2 = update_token user (some newRefresh) db)
    (hu : get_user_by_email email db = some user)
    (hdec : decode_refresh_token now2 t_old = .ok email)
    (hne : newRefresh ≠ t_old) :
    (∃ u2, get_user_by_email email db2 = some u2 ∧
      u2.refresh_token = some newRefresh)
    ∧ (refresh_token now2 t_old db2).1 = .httpError 401 "Invalid refresh token" := by
  have hget2 : get_user_by_email email db2 =
      some { user with refresh_token := some newRefresh } := by
    subst hdb2
    rw [get_user_by_email_update_token, hu]
    simp
  have hcmp : ({ user with refresh_token := some newRefresh } : User).refresh_token ≠
      some t_old := by
    intro heq
    injection heq with h3
    exact hne h3
  exact ⟨⟨_, hget2, rfl⟩, by simp [refresh_token, hdec, hget2, hcmp]⟩

/-- C3: at most one refresh token is valid per principal: a successful
login overwrites the principal's stored refresh token with the newly issued
one, and a successful refresh does the same, so a refresh-scope token for
the same subject issued at any other time (in particular any previously
issued one) no longer equals the stored value and the refresh route fails
with 401 "Invalid refresh token". -/
theorem refresh_rotation_single_validity
    (now now2 : Nat) (db : List User) (t_old : Token) :
    (∀ username password resp db2,
      login now username password db = (.ok resp, db2) →
      decode_refresh_token now2 t_old = .ok username →
      t_old.claims.iat ≠ now →
      (∃ u2, get_user_by_email username db2 = some u2 ∧
        u2.refresh_token = some resp.refresh_token)
      ∧ (refresh_token now2 t_old db2).1 = .httpError 401 "Invalid refresh token")
  ∧ (∀ t_pres email resp db2,
      refresh_token now t_pres db = (.ok resp, db2) →
      decode_refresh_token now t_pres = .ok email →
      decode_refresh_token now2 t_old = .ok email →
      t_old.claims.iat ≠ now →
      (∃ u2, get_user_by_email email db2 = some u2 ∧
        u2.refresh_token = some resp.refresh_token)
      ∧ (refresh_token now2 t_old db2).1 = .httpError 401 "Invalid refresh token") := by
  constructor
  · intro username password resp db2 hlogin hdec hiat
    cases hu : get_user_by_email username db with
    | none => simp [login, hu] at hlogin
    | some user =>
      by_cases hconf : user.confirmed = false
      · simp [login, hu, hconf] at hlogin
      · by_cases hv : verify_password password user.password = false
        · simp [login, hu, hconf, hv] at hlogin
        · simp [login, hu, hconf, hv] at hlogin
          obtain ⟨hresp, hdb2⟩ := hlogin
          have hne : create_refresh_token (some user.email) none now ≠ t_old := by
            intro h
            exact hiat (congrArg (fun tk => tk.claims.iat) h).symm
          have hrot := rotated_store_rejects_old now2 db db2 user username t_old
            (create_refresh_token (some user.email) none now) hdb2.symm hu hdec hne
          refine ⟨?_, hrot.2⟩
          obtain ⟨u2, hg, hr⟩ := hrot.1
          refine ⟨u2, hg, ?_⟩
          rw [hr, ← hresp]
  · intro t_pres email resp db2 hrefresh hdecp hdec hiat
    cases hu : get_user_by_email email db with
    | none => simp [refresh_token, hdecp, hu] at hrefresh
    | some user =>
      by_cases hne0 : user.refresh_token ≠ some t_pres
      · simp [refresh_token, hdecp, hu, hne0] at hrefresh
      · simp [refresh_token, hdecp, hu, hne0] at hrefresh
        obtain ⟨hresp, hdb2⟩ := hrefresh
        have hne : create_refresh_token (some email) none now ≠ t_old := by
          intro h
          exact hiat (congrArg (fun tk => tk.claims.iat) h).symm
        have hrot := rotated_store_rejects_old now2 db db2 user email t_old
          (create_refresh_token (some email) none now) hdb2.symm hu hdec hne
        refine ⟨?_, hrot.2⟩
        obtain ⟨u2, hg, hr⟩ := hrot.1
        refine ⟨u2, hg, ?_⟩
        rw [hr, ← hresp]

/-- C3 witness: alice logs in at time 0 (storing `storedRefresh`); the
distinct well-signed token `staleRefresh` (issued at time 5) then fails to
refresh at time 10, while the rotated row holds the new token. -/
theorem refresh_rotation_single_validity_witness :
    (∃ u2, get_user_by_email "alice@example.com"
        (update_token alice (some storedRefresh) [alice]) = some u2 ∧
      u2.refresh_token = some storedRefresh)
  ∧ (refresh_token 10 staleRefresh
      (update_token alice (some storedRefresh) [alice])).1 =
      .httpError 401 "Invalid refresh token" :=
  (refresh_rotation_single_validity 0 10 [alice] staleRefresh).1
    "alice@example.com" "secret"
    ⟨create_access_token (some "alice@example.com") none 0, storedRefresh, "bearer"⟩
    (update_token alice (some storedRefresh) [alice])
    (by decide) (by decide) (by decide)

end HW13
